import Mathlib

/-!
Formal model of the retirement-metrics projection engine and the INR
formatting helper of a single-page retirement-planning calculator
(`src/utils/formatters.ts`, `src/types.ts`).

Every power the engine takes has an integer exponent, so the whole
computation is exact rational arithmetic; the model therefore uses `ℚ` for
all monetary and rate values and `ℤ` for the integer age fields.
JavaScript `Math.round x` is modelled as `⌊x + 1/2⌋` (halves round up).
-/

/-- A JavaScript number as consumed by the formatting helper: one of the
three non-finite values, or a finite value modelled exactly as a rational. -/
inductive JSNum where
  | nan : JSNum
  | posInf : JSNum
  | negInf : JSNum
  | finite : ℚ → JSNum
deriving DecidableEq

/-- JavaScript `isNaN`: true only for `NaN`; the two infinities are not NaN. -/
def jsIsNaN : JSNum → Bool
  | JSNum.nan => true
  | _ => false

/-- Rounding used by `Intl.NumberFormat` with zero fraction digits: the
default rounding mode rounds halves away from zero. -/
def roundHalfExpand (x : ℚ) : ℤ :=
  if 0 ≤ x then ⌊x + 1 / 2⌋ else -⌊-x + 1 / 2⌋

/-- The character of a single decimal digit. -/
def digitChar (d : ℕ) : Char := Char.ofNat (48 + d)

/-- Split a little-endian digit-character list into groups of two. -/
def chunkTwo : List Char → List (List Char)
  | [] => []
  | [a] => [[a]]
  | a :: b :: rest => [a, b] :: chunkTwo rest

/-- Indian-style digit grouping of a natural number: the last three digits
form one group, every earlier group has two digits, groups are separated by
commas. -/
def indianDigits (n : ℕ) : String :=
  if n = 0 then "0"
  else
    let ds : List Char := (Nat.digits 10 n).map digitChar
    let groups : List (List Char) := ds.take 3 :: chunkTwo (ds.drop 3)
    let pieces : List String :=
      ((groups.filter fun g => ¬ g.isEmpty).reverse).map fun g => String.mk g.reverse
    let sep : String := ","
    String.intercalate sep pieces

/-- Modelled platform behaviour of the locale currency formatter
`Intl.NumberFormat` for locale en-IN, currency INR, zero fraction digits,
following ECMA-402: a NaN argument renders the NaN string, an infinite
argument renders the infinity symbol, and a finite argument renders the
rounded value with Indian digit grouping, each prefixed by the rupee sign
(with a leading minus for negative values). -/
def intlFormatINR : JSNum → String
  | JSNum.nan => "₹NaN"
  | JSNum.posInf => "₹∞"
  | JSNum.negInf => "-₹∞"
  | JSNum.finite x =>
      let r := roundHalfExpand x
      if r < 0 then "-₹" ++ indianDigits (-r).toNat
      else "₹" ++ indianDigits r.toNat

/-- Model of `formatINR` from `src/utils/formatters.ts`: if `isNaN(amount)` return
the zero display, otherwise delegate to the locale currency formatter. -/
def formatINR (amount : JSNum) : String :=
  if jsIsNaN amount then "₹0" else intlFormatINR amount

/-- Model of `CalculatorState` from `src/types.ts`.  The three age fields are integer
years; the remaining numeric fields are exact rationals. -/
structure CalculatorState where
  currentAge : ℤ
  retirementAge : ℤ
  lifeExpectancy : ℤ
  currentMonthlyExpenses : ℚ
  lifestyleFactor : ℚ
  existingSavings : ℚ
  assumedInflation : ℚ
  postRetirementROI : ℚ
  specificGoals : String

/-- One point of the chart series: `age`, and the rounded `balance` and
`expenses` values pushed by the loop. -/
structure ChartPoint where
  age : ℤ
  balance : ℤ
  expenses : ℤ
deriving DecidableEq

/-- Model of `CalculationResult` from `src/types.ts`. -/
structure CalculationResult where
  yearsToRetirement : ℕ
  yearsInRetirement : ℕ
  monthlyExpenseAtRetirement : ℚ
  requiredCorpus : ℚ
  projectedExistingSavings : ℚ
  gap : ℚ
  chartData : List ChartPoint

/-- JavaScript `Math.round`: halves round towards positive infinity. -/
def jsRound (x : ℚ) : ℤ := ⌊x + 1 / 2⌋

/-- Source line `const inflationRate = assumedInflation / 100`. -/
def inflationRate (s : CalculatorState) : ℚ := s.assumedInflation / 100

/-- Source line `const yearsToRetirement = Math.max(0, retirementAge - currentAge)`. -/
def yearsToRetirement (s : CalculatorState) : ℕ :=
  (s.retirementAge - s.currentAge).toNat

/-- Source line `const yearsInRetirement = Math.max(0, lifeExpectancy - retirementAge)`. -/
def yearsInRetirement (s : CalculatorState) : ℕ :=
  (s.lifeExpectancy - s.retirementAge).toNat

/-- Source computation `monthlyExpenseAtRetirement = currentMonthlyExpenses * lifestyleFactor *
(1 + inflationRate)^yearsToRetirement`. -/
def monthlyExpenseAtRetirement (s : CalculatorState) : ℚ :=
  s.currentMonthlyExpenses * s.lifestyleFactor *
    (1 + inflationRate s) ^ yearsToRetirement s

/-- Source computation `annualExpenseAtRetirement = monthlyExpenseAtRetirement * 12`. -/
def annualExpenseAtRetirement (s : CalculatorState) : ℚ :=
  monthlyExpenseAtRetirement s * 12

/-- Source computation `realRate = (1 + roiRate) / (1 + inflationRate) - 1`. -/
def realRate (s : CalculatorState) : ℚ :=
  (1 + s.postRetirementROI) / (1 + inflationRate s) - 1

/-- The corpus computation of `calculateRetirementMetrics`: zero when there
is no retirement horizon; the straight-line product when the real rate is
within `0.0001` of zero; otherwise the end-of-year annuity present value. -/
def requiredCorpus (s : CalculatorState) : ℚ :=
  if 0 < yearsInRetirement s then
    if |realRate s| < 1 / 10000 then
      annualExpenseAtRetirement s * (yearsInRetirement s : ℚ)
    else
      annualExpenseAtRetirement s *
        ((1 - (1 + realRate s) ^ (-(yearsInRetirement s : ℤ))) / realRate s)
  else 0

/-- Source line `const accumulationRate = 0.10`. -/
def accumulationRate : ℚ := 1 / 10

/-- Source computation `projectedExistingSavings = existingSavings * (1 + accumulationRate) ^ yearsToRetirement`. -/
def projectedExistingSavings (s : CalculatorState) : ℚ :=
  s.existingSavings * (1 + accumulationRate) ^ yearsToRetirement s

/-- Source line `gap = Math.max(0, requiredCorpus - projectedExistingSavings)`. -/
def gap (s : CalculatorState) : ℚ :=
  max 0 (requiredCorpus s - projectedExistingSavings s)

/-- The chart-generation loop of `calculateRetirementMetrics`: `year` is the
loop counter, `fuel` is the number of iterations still allowed by the loop
condition `year <= yearsInRetirement + 5`, `bal` and `expense` are the
mutable `currentBalance` and `currentAnnualExpense`.  The loop breaks once
`age > lifeExpectancy + 5`; while `age < lifeExpectancy` the balance grows
by the ROI rate and the annual expense is withdrawn, after which the expense
is inflated; from `lifeExpectancy` on the running balance is forced to 0. -/
def chartAux (R L : ℤ) (roi infl : ℚ) : ℚ → ℚ → ℕ → ℕ → List ChartPoint
  | _, _, _, 0 => []
  | bal, expense, year, fuel + 1 =>
    if L + 5 < R + (year : ℤ) then []
    else
      { age := R + (year : ℤ)
        balance := max 0 (jsRound bal)
        expenses := jsRound expense } ::
        (if R + (year : ℤ) < L then
          chartAux R L roi infl (bal * (1 + roi) - expense) (expense * (1 + infl))
            (year + 1) fuel
        else
          chartAux R L roi infl 0 expense (year + 1) fuel)

/-- Model of `calculateRetirementMetrics` from `src/utils/formatters.ts`, assembled
from the per-line definitions above. -/
def calculateRetirementMetrics (s : CalculatorState) : CalculationResult :=
  { yearsToRetirement := yearsToRetirement s
    yearsInRetirement := yearsInRetirement s
    monthlyExpenseAtRetirement := monthlyExpenseAtRetirement s
    requiredCorpus := requiredCorpus s
    projectedExistingSavings := projectedExistingSavings s
    gap := gap s
    chartData :=
      chartAux s.retirementAge s.lifeExpectancy s.postRetirementROI (inflationRate s)
        (requiredCorpus s) (annualExpenseAtRetirement s) 0 (yearsInRetirement s + 6) }

/-- The running annual-expense value of the chart loop, as a sequence
indexed by the loop counter: it is inflated by `1 + inflationRate` exactly
on the steps whose age is still below `lifeExpectancy`. -/
def expenseSeq (s : CalculatorState) : ℕ → ℚ
  | 0 => annualExpenseAtRetirement s
  | k + 1 =>
    if s.retirementAge + (k : ℤ) < s.lifeExpectancy then
      expenseSeq s k * (1 + inflationRate s)
    else
      expenseSeq s k

/-- The running balance of the chart loop, as a sequence indexed by the
loop counter: while the age is below `lifeExpectancy` it grows by the ROI
rate and the current annual expense is withdrawn; afterwards it is 0. -/
def balanceSeq (s : CalculatorState) : ℕ → ℚ
  | 0 => requiredCorpus s
  | k + 1 =>
    if s.retirementAge + (k : ℤ) < s.lifeExpectancy then
      balanceSeq s k * (1 + s.postRetirementROI) - expenseSeq s k
    else
      0

/-- C1: `requiredCorpus` is computed by the spec's three-way case split —
zero when the retirement horizon is zero, the straight-line product
`annualExpense * yearsInRetirement` when the real rate is within `0.0001`
of zero, and otherwise the growing-annuity present value
`annualExpense * (1 - (1+realRate)^(-yearsInRetirement)) / realRate`,
where the annual expense at retirement is
`12 * currentMonthlyExpenses * lifestyleFactor * (1 + assumedInflation/100)^yearsToRetirement`. -/
theorem requiredCorpus_three_way_case_split (s : CalculatorState) :
    (calculateRetirementMetrics s).requiredCorpus =
      if (calculateRetirementMetrics s).yearsInRetirement = 0 then 0
      else if |(1 + s.postRetirementROI) / (1 + s.assumedInflation / 100) - 1| < 1 / 10000 then
        12 * s.currentMonthlyExpenses * s.lifestyleFactor *
            (1 + s.assumedInflation / 100) ^ (calculateRetirementMetrics s).yearsToRetirement *
          ((calculateRetirementMetrics s).yearsInRetirement : ℚ)
      else
        12 * s.currentMonthlyExpenses * s.lifestyleFactor *
            (1 + s.assumedInflation / 100) ^ (calculateRetirementMetrics s).yearsToRetirement *
          (1 - (1 + ((1 + s.postRetirementROI) / (1 + s.assumedInflation / 100) - 1)) ^
            (-((calculateRetirementMetrics s).yearsInRetirement : ℤ))) /
          ((1 + s.postRetirementROI) / (1 + s.assumedInflation / 100) - 1) := by
  show requiredCorpus s =
    if yearsInRetirement s = 0 then 0
    else if |(1 + s.postRetirementROI) / (1 + s.assumedInflation / 100) - 1| < 1 / 10000 then
      12 * s.currentMonthlyExpenses * s.lifestyleFactor *
          (1 + s.assumedInflation / 100) ^ yearsToRetirement s * (yearsInRetirement s : ℚ)
    else
      12 * s.currentMonthlyExpenses * s.lifestyleFactor *
          (1 + s.assumedInflation / 100) ^ yearsToRetirement s *
        (1 - (1 + ((1 + s.postRetirementROI) / (1 + s.assumedInflation / 100) - 1)) ^
          (-(yearsInRetirement s : ℤ))) /
        ((1 + s.postRetirementROI) / (1 + s.assumedInflation / 100) - 1)
  rw [requiredCorpus, annualExpenseAtRetirement, monthlyExpenseAtRetirement, realRate,
    inflationRate]
  rcases Nat.eq_zero_or_pos (yearsInRetirement s) with h | h
  · rw [h]
    simp
  · rw [if_pos h, if_neg (by omega : ¬ yearsInRetirement s = 0)]
    split_ifs with hg
    · ring
    · ring

/-- C2: the spec's concrete scenario — ages 45/55/85, monthly expenses
100000, lifestyle factor 1, savings 5000000, inflation 6%, ROI 0.08 —
produces a 10-year accumulation horizon, a 30-year retirement horizon, the
inflated monthly expense `100000 * 1.06^10`, the real rate
`1.08/1.06 - 1`, the closed-form annuity corpus, and projected savings
`5000000 * 1.10^10`. -/
theorem concrete_scenario_metrics :
    (calculateRetirementMetrics ⟨45, 55, 85, 100000, 1, 5000000, 6, 0.08, ""⟩).yearsToRetirement
        = 10 ∧
    (calculateRetirementMetrics ⟨45, 55, 85, 100000, 1, 5000000, 6, 0.08, ""⟩).yearsInRetirement
        = 30 ∧
    (calculateRetirementMetrics
        ⟨45, 55, 85, 100000, 1, 5000000, 6, 0.08, ""⟩).monthlyExpenseAtRetirement
        = 100000 * 1.06 ^ 10 ∧
    realRate ⟨45, 55, 85, 100000, 1, 5000000, 6, 0.08, ""⟩ = 1.08 / 1.06 - 1 ∧
    (calculateRetirementMetrics ⟨45, 55, 85, 100000, 1, 5000000, 6, 0.08, ""⟩).requiredCorpus
        = 12 * (100000 * 1.06 ^ 10) *
            (1 - (1 + (1.08 / 1.06 - 1)) ^ (-(30 : ℤ))) / (1.08 / 1.06 - 1) ∧
    (calculateRetirementMetrics
        ⟨45, 55, 85, 100000, 1, 5000000, 6, 0.08, ""⟩).projectedExistingSavings
        = 5000000 * 1.10 ^ 10 := by
  have hρ : realRate ⟨45, 55, 85, 100000, 1, 5000000, 6, 0.08, ""⟩ = 1.08 / 1.06 - 1 := by
    rw [realRate, inflationRate]
    norm_num
  have hg : ¬ |realRate ⟨45, 55, 85, 100000, 1, 5000000, 6, 0.08, ""⟩| < 1 / 10000 := by
    rw [hρ, abs_of_nonneg (by norm_num : (0:ℚ) ≤ 1.08 / 1.06 - 1)]
    norm_num
  have hT : yearsToRetirement ⟨45, 55, 85, 100000, 1, 5000000, 6, 0.08, ""⟩ = 10 := rfl
  have hN : yearsInRetirement ⟨45, 55, 85, 100000, 1, 5000000, 6, 0.08, ""⟩ = 30 := rfl
  refine ⟨rfl, rfl, ?_, hρ, ?_, ?_⟩
  · show monthlyExpenseAtRetirement ⟨45, 55, 85, 100000, 1, 5000000, 6, 0.08, ""⟩ = _
    rw [monthlyExpenseAtRetirement, inflationRate, hT]
    norm_num
  · show requiredCorpus ⟨45, 55, 85, 100000, 1, 5000000, 6, 0.08, ""⟩ = _
    rw [requiredCorpus,
      if_pos (by decide : 0 < yearsInRetirement ⟨45, 55, 85, 100000, 1, 5000000, 6, 0.08, ""⟩),
      if_neg hg, annualExpenseAtRetirement, monthlyExpenseAtRetirement, inflationRate, hρ, hT, hN]
    norm_num
  · show projectedExistingSavings ⟨45, 55, 85, 100000, 1, 5000000, 6, 0.08, ""⟩ = _
    rw [projectedExistingSavings, accumulationRate, hT]
    norm_num

/-- C3: the horizon and gap invariants — `yearsToRetirement` and
`yearsInRetirement` are the non-negative clamps of the age differences,
`gap` is the non-negative clamp of `requiredCorpus - projectedExistingSavings`,
hence never negative and zero whenever the projected savings cover the
required corpus. -/
theorem horizon_and_gap_invariants (s : CalculatorState) :
    ((calculateRetirementMetrics s).yearsToRetirement : ℤ)
        = max 0 (s.retirementAge - s.currentAge) ∧
    ((calculateRetirementMetrics s).yearsInRetirement : ℤ)
        = max 0 (s.lifeExpectancy - s.retirementAge) ∧
    (calculateRetirementMetrics s).gap =
      max 0 ((calculateRetirementMetrics s).requiredCorpus -
        (calculateRetirementMetrics s).projectedExistingSavings) ∧
    0 ≤ (calculateRetirementMetrics s).gap ∧
    ((calculateRetirementMetrics s).requiredCorpus ≤
        (calculateRetirementMetrics s).projectedExistingSavings →
      (calculateRetirementMetrics s).gap = 0) := by
  refine ⟨?_, ?_, rfl, ?_, ?_⟩
  · show ((s.retirementAge - s.currentAge).toNat : ℤ) = _
    rw [Int.toNat_eq_max, max_comm]
  · show ((s.lifeExpectancy - s.retirementAge).toNat : ℤ) = _
    rw [Int.toNat_eq_max, max_comm]
  · show (0:ℚ) ≤ max 0 (requiredCorpus s - projectedExistingSavings s)
    exact le_max_left _ _
  · intro h
    show max 0 (requiredCorpus s - projectedExistingSavings s) = 0
    rw [max_eq_left]
    exact sub_nonpos.mpr h

/-- Witness for the gap invariants: at a state with zero expenses and zero
savings the projected savings cover the required corpus, so the gap is 0. -/
theorem horizon_and_gap_invariants_witness :
    (calculateRetirementMetrics ⟨45, 55, 85, 0, 1, 0, 6, 0.08, ""⟩).gap = 0 :=
  (horizon_and_gap_invariants ⟨45, 55, 85, 0, 1, 0, 6, 0.08, ""⟩).2.2.2.2
    (by simp [calculateRetirementMetrics, requiredCorpus, projectedExistingSavings,
      annualExpenseAtRetirement, monthlyExpenseAtRetirement])

/-- C4: projected existing savings always grow at the fixed 10%
accumulation rate — `existingSavings * 1.10 ^ yearsToRetirement` — and do
not depend on the `postRetirementROI` field: changing only that field
leaves them unchanged. -/
theorem projectedSavings_fixed_rate (s : CalculatorState) (x : ℚ) :
    (calculateRetirementMetrics s).projectedExistingSavings
        = s.existingSavings * 1.10 ^ (calculateRetirementMetrics s).yearsToRetirement ∧
    (calculateRetirementMetrics
        { s with postRetirementROI := x }).projectedExistingSavings
      = (calculateRetirementMetrics s).projectedExistingSavings := by
  constructor
  · show projectedExistingSavings s = s.existingSavings * 1.10 ^ yearsToRetirement s
    rw [projectedExistingSavings, accumulationRate]
    norm_num
  · rfl

/-- Length of the chart loop output: the minimum of the remaining fuel and
the number of ages from the current year that do not exceed `L + 5`. -/
theorem chartAux_length (R L : ℤ) (roi infl : ℚ) :
    ∀ (fuel : ℕ) (bal expense : ℚ) (year : ℕ),
      (chartAux R L roi infl bal expense year fuel).length
        = min fuel (L + 6 - R - (year : ℤ)).toNat := by
  intro fuel
  induction fuel with
  | zero =>
    intro bal expense year
    simp only [chartAux, List.length_nil]
    omega
  | succ fuel ih =>
    intro bal expense year
    rw [chartAux]
    by_cases hbr : L + 5 < R + (year : ℤ)
    · rw [if_pos hbr]
      simp only [List.length_nil]
      omega
    · rw [if_neg hbr]
      by_cases hlt : R + (year : ℤ) < L
      · rw [if_pos hlt, List.length_cons, ih]
        push_cast
        omega
      · rw [if_neg hlt, List.length_cons, ih]
        push_cast
        omega

/-- Every point the chart loop emits has age at most `L + 5` (the loop
breaks beyond that age). -/
theorem chartAux_mem_age_le (R L : ℤ) (roi infl : ℚ) :
    ∀ (fuel : ℕ) (bal expense : ℚ) (year : ℕ) (p : ChartPoint),
      p ∈ chartAux R L roi infl bal expense year fuel → p.age ≤ L + 5 := by
  intro fuel
  induction fuel with
  | zero =>
    intro bal expense year p hp
    simp [chartAux] at hp
  | succ fuel ih =>
    intro bal expense year p hp
    rw [chartAux] at hp
    by_cases hbr : L + 5 < R + (year : ℤ)
    · rw [if_pos hbr] at hp
      simp at hp
    · rw [if_neg hbr] at hp
      rcases List.mem_cons.mp hp with h | h
      · rw [h]
        exact not_lt.mp hbr
      · by_cases hlt : R + (year : ℤ) < L
        · rw [if_pos hlt] at h
          exact ih _ _ _ p h
        · rw [if_neg hlt] at h
          exact ih _ _ _ p h

/-- Each element of the chart loop, started at loop counter `m` from the
running balance and expense sequences, is the corresponding sequence value:
point `k` carries age `R + m + k`, the running balance rounded and clamped
at zero, and the running expense rounded. -/
theorem chartAux_get_seq (s : CalculatorState) :
    ∀ (fuel m k : ℕ),
      k < (chartAux s.retirementAge s.lifeExpectancy s.postRetirementROI
        (inflationRate s) (balanceSeq s m) (expenseSeq s m) m fuel).length →
      (chartAux s.retirementAge s.lifeExpectancy s.postRetirementROI
          (inflationRate s) (balanceSeq s m) (expenseSeq s m) m fuel).get? k
        = some { age := s.retirementAge + ((m + k : ℕ) : ℤ)
                 balance := max 0 (jsRound (balanceSeq s (m + k)))
                 expenses := jsRound (expenseSeq s (m + k)) } := by
  intro fuel
  induction fuel with
  | zero =>
    intro m k hk
    simp [chartAux] at hk
  | succ fuel ih =>
    intro m k hk
    by_cases hbr : s.lifeExpectancy + 5 < s.retirementAge + (m : ℤ)
    · exfalso
      have hlen : (chartAux s.retirementAge s.lifeExpectancy s.postRetirementROI
          (inflationRate s) (balanceSeq s m) (expenseSeq s m) m (fuel + 1)).length = 0 := by
        rw [chartAux, if_pos hbr]
        rfl
      omega
    · have hcons : chartAux s.retirementAge s.lifeExpectancy s.postRetirementROI
          (inflationRate s) (balanceSeq s m) (expenseSeq s m) m (fuel + 1)
          = { age := s.retirementAge + (m : ℤ)
              balance := max 0 (jsRound (balanceSeq s m))
              expenses := jsRound (expenseSeq s m) } ::
            chartAux s.retirementAge s.lifeExpectancy s.postRetirementROI
              (inflationRate s) (balanceSeq s (m + 1)) (expenseSeq s (m + 1)) (m + 1) fuel := by
        rw [chartAux, if_neg hbr]
        by_cases hlt : s.retirementAge + (m : ℤ) < s.lifeExpectancy
        · have hb : balanceSeq s (m + 1)
              = balanceSeq s m * (1 + s.postRetirementROI) - expenseSeq s m := by
            rw [balanceSeq, if_pos hlt]
          have he : expenseSeq s (m + 1) = expenseSeq s m * (1 + inflationRate s) := by
            rw [expenseSeq, if_pos hlt]
          rw [if_pos hlt, hb, he]
        · have hb : balanceSeq s (m + 1) = 0 := by
            rw [balanceSeq, if_neg hlt]
          have he : expenseSeq s (m + 1) = expenseSeq s m := by
            rw [expenseSeq, if_neg hlt]
          rw [if_neg hlt, hb, he]
      rw [hcons]
      cases k with
      | zero =>
        rw [List.get?_cons_zero]
        norm_num
      | succ k =>
        rw [List.get?_cons_succ]
        have harith : m + (k + 1) = (m + 1) + k := by omega
        rw [harith]
        apply ih (m + 1) k
        have hlen := congrArg List.length hcons
        rw [List.length_cons] at hlen
        omega

/-- The chart series of the assembled result, elementwise: point `k` has
age `retirementAge + k`, the rounded clamped running balance, and the
rounded running expense. -/
theorem chartData_get (s : CalculatorState) (k : ℕ)
    (hk : k < (calculateRetirementMetrics s).chartData.length) :
    (calculateRetirementMetrics s).chartData.get ⟨k, hk⟩
      = { age := s.retirementAge + (k : ℤ)
          balance := max 0 (jsRound (balanceSeq s k))
          expenses := jsRound (expenseSeq s k) } := by
  have h0 : (calculateRetirementMetrics s).chartData.get? k
      = some { age := s.retirementAge + ((0 + k : ℕ) : ℤ)
               balance := max 0 (jsRound (balanceSeq s (0 + k)))
               expenses := jsRound (expenseSeq s (0 + k)) } :=
    chartAux_get_seq s (yearsInRetirement s + 6) 0 k hk
  have h1 : (calculateRetirementMetrics s).chartData.get? k
      = some ((calculateRetirementMetrics s).chartData.get ⟨k, hk⟩) :=
    List.get?_eq_get hk
  have h2 := Option.some.inj (h1.symm.trans h0)
  rw [h2]
  norm_num

/-- Once a point's age has reached life expectancy, the running expense of
the chart loop never changes again. -/
theorem expenseSeq_const_after (s : CalculatorState) (j : ℕ)
    (hage : s.lifeExpectancy ≤ s.retirementAge + (j : ℤ)) :
    ∀ k, j ≤ k → expenseSeq s k = expenseSeq s j := by
  intro k
  induction k with
  | zero =>
    intro h
    have h0 : j = 0 := Nat.le_zero.mp h
    rw [h0]
  | succ k ih =>
    intro h
    rcases Nat.lt_or_ge j (k + 1) with hlt | hge
    · have hjk : j ≤ k := by omega
      have hcast : (j : ℤ) ≤ (k : ℤ) := by exact_mod_cast hjk
      have hcond : ¬ s.retirementAge + (k : ℤ) < s.lifeExpectancy := by omega
      rw [expenseSeq, if_neg hcond, ih hjk]
    · have hjk : j = k + 1 := by omega
      rw [hjk]

/-- C5 counterexample: with retirement age 60 and life expectancy 50 the
loop breaks immediately and the chart has no points, while the claimed
length `min (yearsInRetirement + 6) (lifeExpectancy + 5 - retirementAge + 1)`
evaluates to the negative number `-4`. -/
theorem chart_length_claim_counterexample :
    ¬ (((calculateRetirementMetrics
          ⟨45, 60, 50, 100000, 1, 5000000, 6, 0.08, ""⟩).chartData.length : ℤ)
        = min (((calculateRetirementMetrics
            ⟨45, 60, 50, 100000, 1, 5000000, 6, 0.08, ""⟩).yearsInRetirement : ℤ) + 6)
            ((50 : ℤ) + 5 - 60 + 1)) := by
  decide

/-- C5 amended: the chart series has
`min (yearsInRetirement + 6) (max 0 (lifeExpectancy + 5 - retirementAge + 1))`
points — the second bound clamped at zero, which is what the immediate break
produces when the retirement age exceeds `lifeExpectancy + 6`; point `k`
has age `retirementAge + k`, so when the series is nonempty its first point
sits at `retirementAge` and ages increase by exactly one; and every point's
age is at most `lifeExpectancy + 5`. -/
theorem chart_length_and_ages (s : CalculatorState) :
    (((calculateRetirementMetrics s).chartData.length : ℤ)
        = min (((calculateRetirementMetrics s).yearsInRetirement : ℤ) + 6)
            (max 0 (s.lifeExpectancy + 5 - s.retirementAge + 1))) ∧
    (∀ (k : ℕ) (hk : k < (calculateRetirementMetrics s).chartData.length),
      ((calculateRetirementMetrics s).chartData.get ⟨k, hk⟩).age
        = s.retirementAge + (k : ℤ)) ∧
    (∀ p ∈ (calculateRetirementMetrics s).chartData, p.age ≤ s.lifeExpectancy + 5) := by
  refine ⟨?_, ?_, ?_⟩
  · show ((chartAux s.retirementAge s.lifeExpectancy s.postRetirementROI (inflationRate s)
        (requiredCorpus s) (annualExpenseAtRetirement s) 0
        (yearsInRetirement s + 6)).length : ℤ)
      = min ((yearsInRetirement s : ℤ) + 6)
          (max 0 (s.lifeExpectancy + 5 - s.retirementAge + 1))
    rw [chartAux_length]
    rw [yearsInRetirement]
    omega
  · intro k hk
    rw [chartData_get s k hk]
  · intro p hp
    exact chartAux_mem_age_le s.retirementAge s.lifeExpectancy s.postRetirementROI
      (inflationRate s) (yearsInRetirement s + 6) (requiredCorpus s)
      (annualExpenseAtRetirement s) 0 p hp

/-- Witness for the chart length and age properties: in a concrete series
the fourth point sits three years past the retirement age. -/
theorem chart_length_and_ages_witness :
    ((calculateRetirementMetrics ⟨50, 52, 55, 1000, 1, 0, 0, 0, ""⟩).chartData.get
        ⟨3, by decide⟩).age = 52 + (3 : ℤ) :=
  (chart_length_and_ages ⟨50, 52, 55, 1000, 1, 0, 0, 0, ""⟩).2.1 3 (by decide)

/-- C6: the chart balances follow the loop recurrence — while a step's age
is below life expectancy the next running balance is
`balance * (1 + postRetirementROI) - currentAnnualExpense` — each emitted
balance is the running balance rounded and clamped at zero, and every point
after a point whose age has reached or passed life expectancy has
balance 0. -/
theorem chart_balance_recurrence (s : CalculatorState) :
    (∀ k : ℕ, s.retirementAge + (k : ℤ) < s.lifeExpectancy →
      balanceSeq s (k + 1)
        = balanceSeq s k * (1 + s.postRetirementROI) - expenseSeq s k) ∧
    (∀ (k : ℕ) (hk : k < (calculateRetirementMetrics s).chartData.length),
      ((calculateRetirementMetrics s).chartData.get ⟨k, hk⟩).balance
        = max 0 (jsRound (balanceSeq s k))) ∧
    (∀ (j k : ℕ) (hj : j < (calculateRetirementMetrics s).chartData.length)
        (hk : k < (calculateRetirementMetrics s).chartData.length), j < k →
      s.lifeExpectancy ≤ ((calculateRetirementMetrics s).chartData.get ⟨j, hj⟩).age →
      ((calculateRetirementMetrics s).chartData.get ⟨k, hk⟩).balance = 0) := by
  refine ⟨?_, ?_, ?_⟩
  · intro k hklt
    rw [balanceSeq, if_pos hklt]
  · intro k hk
    rw [chartData_get s k hk]
  · intro j k hj hk hjk hage
    have hage' : s.lifeExpectancy ≤ s.retirementAge + (j : ℤ) := by
      rw [chartData_get s j hj] at hage
      exact hage
    obtain ⟨m, rfl⟩ : ∃ m, k = m + 1 := ⟨k - 1, by omega⟩
    rw [chartData_get s (m + 1) hk]
    show max 0 (jsRound (balanceSeq s (m + 1))) = 0
    have hcast : (j : ℤ) ≤ (m : ℤ) := by exact_mod_cast (by omega : j ≤ m)
    have hcond : ¬ s.retirementAge + (m : ℤ) < s.lifeExpectancy := by omega
    rw [balanceSeq, if_neg hcond]
    norm_num [jsRound]

/-- Witness for the balance recurrence: in a concrete series the point one
step past the life-expectancy point has balance 0. -/
theorem chart_balance_recurrence_witness :
    ((calculateRetirementMetrics ⟨50, 52, 55, 1000, 1, 0, 0, 0, ""⟩).chartData.get
        ⟨4, by decide⟩).balance = 0 :=
  (chart_balance_recurrence ⟨50, 52, 55, 1000, 1, 0, 0, 0, ""⟩).2.2 3 4 (by decide)
    (by decide) (by decide) (by decide)

/-- C10: the plotted expense stream is inflated only across steps whose
earlier point is below life expectancy — the running expense multiplies by
`1 + assumedInflation/100` exactly on such steps and is unchanged
otherwise — each emitted expenses value is the running expense rounded, and
all points at or past life expectancy carry the same expenses value. -/
theorem chart_expenses_inflation_stops (s : CalculatorState) :
    (∀ k : ℕ,
      (s.retirementAge + (k : ℤ) < s.lifeExpectancy →
        expenseSeq s (k + 1) = expenseSeq s k * (1 + s.assumedInflation / 100)) ∧
      (s.lifeExpectancy ≤ s.retirementAge + (k : ℤ) →
        expenseSeq s (k + 1) = expenseSeq s k)) ∧
    (∀ (k : ℕ) (hk : k < (calculateRetirementMetrics s).chartData.length),
      ((calculateRetirementMetrics s).chartData.get ⟨k, hk⟩).expenses
        = jsRound (expenseSeq s k)) ∧
    (∀ (j k : ℕ) (hj : j < (calculateRetirementMetrics s).chartData.length)
        (hk : k < (calculateRetirementMetrics s).chartData.length),
      s.lifeExpectancy ≤ ((calculateRetirementMetrics s).chartData.get ⟨j, hj⟩).age →
      s.lifeExpectancy ≤ ((calculateRetirementMetrics s).chartData.get ⟨k, hk⟩).age →
      ((calculateRetirementMetrics s).chartData.get ⟨j, hj⟩).expenses
        = ((calculateRetirementMetrics s).chartData.get ⟨k, hk⟩).expenses) := by
  refine ⟨?_, ?_, ?_⟩
  · intro k
    constructor
    · intro hklt
      rw [expenseSeq, if_pos hklt, inflationRate]
    · intro hkge
      rw [expenseSeq, if_neg (not_lt.mpr hkge)]
  · intro k hk
    rw [chartData_get s k hk]
  · intro j k hj hk haj hak
    have haj' : s.lifeExpectancy ≤ s.retirementAge + (j : ℤ) := by
      rw [chartData_get s j hj] at haj
      exact haj
    have hak' : s.lifeExpectancy ≤ s.retirementAge + (k : ℤ) := by
      rw [chartData_get s k hk] at hak
      exact hak
    rw [chartData_get s j hj, chartData_get s k hk]
    show jsRound (expenseSeq s j) = jsRound (expenseSeq s k)
    rcases le_total j k with h | h
    · rw [expenseSeq_const_after s j haj' k h]
    · rw [expenseSeq_const_after s k hak' j h]

/-- Witness for the expense-inflation property: in a concrete series the
life-expectancy point and a later point carry the same expenses value. -/
theorem chart_expenses_inflation_stops_witness :
    ((calculateRetirementMetrics ⟨50, 52, 55, 1000, 1, 0, 0, 0, ""⟩).chartData.get
        ⟨3, by decide⟩).expenses
      = ((calculateRetirementMetrics ⟨50, 52, 55, 1000, 1, 0, 0, 0, ""⟩).chartData.get
        ⟨5, by decide⟩).expenses :=
  (chart_expenses_inflation_stops ⟨50, 52, 55, 1000, 1, 0, 0, 0, ""⟩).2.2 3 5 (by decide)
    (by decide) (by decide) (by decide)

/-- C8 counterexample: at `assumedInflation = -100` — a real-valued input
record — the divisor `1 + inflationRate` used to compute the real rate is
zero, so not every division the engine performs has a nonzero divisor. -/
theorem division_guard_counterexample :
    1 + inflationRate ⟨45, 55, 85, 100000, 1, 5000000, -100, 0.08, ""⟩ = 0 := by
  rw [inflationRate]
  norm_num

/-- C8 amended: the engine is total (the model is a total function on every
input record), and its divisions have nonzero divisors provided
`assumedInflation ≠ -100`: then `1 + inflationRate` is nonzero, and the
divisor `realRate` of the annuity branch is nonzero whenever that branch's
guard `¬ |realRate| < 0.0001` holds. -/
theorem division_guards_amended (s : CalculatorState)
    (h : s.assumedInflation ≠ -100) :
    1 + inflationRate s ≠ 0 ∧
    (¬ |realRate s| < 1 / 10000 → realRate s ≠ 0) := by
  constructor
  · rw [inflationRate]
    intro hc
    exact h (by linarith)
  · intro hg hc
    rw [hc] at hg
    norm_num at hg

/-- Witness for the division guards at the spec's concrete scenario. -/
theorem division_guards_amended_witness :
    (1 : ℚ) + inflationRate ⟨45, 55, 85, 100000, 1, 5000000, 6, 0.08, ""⟩ ≠ 0 :=
  (division_guards_amended ⟨45, 55, 85, 100000, 1, 5000000, 6, 0.08, ""⟩ (by decide)).1

/-- C9 counterexample: JavaScript `isNaN` is false on positive infinity, so
`formatINR` does not return the zero display there — the locale formatter
renders the infinity symbol instead. -/
theorem formatINR_infinity_counterexample :
    ¬ formatINR JSNum.posInf = "₹0" := by
  decide

/-- C9 amended: only NaN is guarded — `formatINR` returns the zero display
for NaN, while positive and negative infinity fall through to the locale
formatter and render as the infinity symbol. -/
theorem formatINR_nonfinite_amended :
    formatINR JSNum.nan = "₹0" ∧
    formatINR JSNum.posInf = "₹∞" ∧
    formatINR JSNum.negInf = "-₹∞" :=
  ⟨rfl, rfl, rfl⟩

/-- The annuity factor of the corpus computation: the number of retirement
years when the real rate is within `0.0001` of zero, otherwise the
end-of-year present-value factor. -/
def annuityFactor (n : ℕ) (ρ : ℚ) : ℚ :=
  if |ρ| < 1 / 10000 then (n : ℚ)
  else (1 - (1 + ρ) ^ (-(n : ℤ))) / ρ

/-- The required corpus factors as the annual expense times the annuity
factor of the real rate. -/
theorem requiredCorpus_eq_annuityFactor (s : CalculatorState) :
    requiredCorpus s
      = if 0 < yearsInRetirement s then
          annualExpenseAtRetirement s * annuityFactor (yearsInRetirement s) (realRate s)
        else 0 := by
  rw [requiredCorpus, annuityFactor]
  split_ifs <;> rfl

/-- Multiplying the finite geometric sum of discount factors by the rate
telescopes to `1 - (1 + ρ)⁻¹ ^ n`. -/
theorem geom_sum_mul_rate (ρ : ℚ) (hρ1 : 1 + ρ ≠ 0) :
    ∀ n : ℕ, ρ * ∑ k ∈ Finset.range n, ((1 + ρ)⁻¹) ^ (k + 1)
      = 1 - ((1 + ρ)⁻¹) ^ n := by
  have hx : (1 + ρ) * (1 + ρ)⁻¹ = 1 := mul_inv_cancel₀ hρ1
  intro n
  induction n with
  | zero => simp
  | succ n ih =>
    rw [Finset.sum_range_succ, mul_add, ih]
    linear_combination ((1 + ρ)⁻¹) ^ n * hx

/-- The annuity present-value factor is the finite geometric sum of the
yearly discount factors. -/
theorem annuity_div_eq_geom_sum (ρ : ℚ) (hρ1 : 1 + ρ ≠ 0) (hρ0 : ρ ≠ 0) (n : ℕ) :
    (1 - (1 + ρ) ^ (-(n : ℤ))) / ρ
      = ∑ k ∈ Finset.range n, ((1 + ρ)⁻¹) ^ (k + 1) := by
  have hpow : (1 + ρ) ^ (-(n : ℤ)) = ((1 + ρ)⁻¹) ^ n := by
    rw [zpow_neg, zpow_natCast, inv_pow]
  rw [hpow, div_eq_iff hρ0, ← geom_sum_mul_rate ρ hρ1 n]
  ring

/-- A geometric sum of non-negative powers is non-negative. -/
theorem geomSum_nonneg {x : ℚ} (hx : 0 ≤ x) (n : ℕ) :
    0 ≤ ∑ k ∈ Finset.range n, x ^ (k + 1) :=
  Finset.sum_nonneg fun k _ => pow_nonneg hx (k + 1)

/-- Geometric sums are monotone in the base (for non-negative bases). -/
theorem geomSum_mono {x y : ℚ} (hx : 0 ≤ x) (hxy : x ≤ y) (n : ℕ) :
    ∑ k ∈ Finset.range n, x ^ (k + 1) ≤ ∑ k ∈ Finset.range n, y ^ (k + 1) :=
  Finset.sum_le_sum fun k _ => pow_le_pow_left₀ hx hxy (k + 1)

/-- A geometric sum with base in `[0, 1]` is at most the number of terms. -/
theorem geomSum_le_card {x : ℚ} (hx0 : 0 ≤ x) (hx1 : x ≤ 1) (n : ℕ) :
    ∑ k ∈ Finset.range n, x ^ (k + 1) ≤ (n : ℚ) := by
  calc ∑ k ∈ Finset.range n, x ^ (k + 1) ≤ ∑ k ∈ Finset.range n, 1 :=
        Finset.sum_le_sum fun k _ => pow_le_one₀ hx0 hx1
    _ = (n : ℚ) := by simp

/-- A geometric sum with base at least `1` is at least the number of
terms. -/
theorem card_le_geomSum {x : ℚ} (hx : 1 ≤ x) (n : ℕ) :
    (n : ℚ) ≤ ∑ k ∈ Finset.range n, x ^ (k + 1) := by
  calc (n : ℚ) = ∑ k ∈ Finset.range n, 1 := by simp
    _ ≤ ∑ k ∈ Finset.range n, x ^ (k + 1) :=
        Finset.sum_le_sum fun k _ => by
          calc (1 : ℚ) = 1 ^ (k + 1) := (one_pow _).symm
            _ ≤ x ^ (k + 1) := pow_le_pow_left₀ zero_le_one hx (k + 1)

/-- The annuity factor is non-negative for real rates above `-1`. -/
theorem annuityFactor_nonneg (n : ℕ) {ρ : ℚ} (hρ : -1 < ρ) :
    0 ≤ annuityFactor n ρ := by
  rw [annuityFactor]
  split_ifs with hg
  · exact Nat.cast_nonneg n
  · have hρ1 : (0:ℚ) < 1 + ρ := by linarith
    have hρ0 : ρ ≠ 0 := by
      intro hc
      rw [hc] at hg
      norm_num at hg
    rw [annuity_div_eq_geom_sum ρ (ne_of_gt hρ1) hρ0 n]
    exact geomSum_nonneg (inv_nonneg.mpr hρ1.le) n

/-- The annuity factor, guard included, is antitone in the real rate on
rates above `-1`: a lower real rate never gives a smaller factor. -/
theorem annuityFactor_antitone (n : ℕ) {a b : ℚ} (ha : -1 < a) (hb : -1 < b)
    (hab : a ≤ b) : annuityFactor n b ≤ annuityFactor n a := by
  have ha1 : (0:ℚ) < 1 + a := by linarith
  have hb1 : (0:ℚ) < 1 + b := by linarith
  have hxba : (1 + b)⁻¹ ≤ (1 + a)⁻¹ := inv_anti₀ ha1 (by linarith)
  rw [annuityFactor, annuityFactor]
  split_ifs with hgb hga hga
  · exact le_refl _
  · have hax : (1 : ℚ) / 10000 ≤ |a| := not_lt.mp hga
    have ha0 : a ≤ -(1 / 10000) := by
      rcases abs_cases a with ⟨he, h0⟩ | ⟨he, h0⟩
      · exfalso
        rw [abs_lt] at hgb
        rw [he] at hax
        linarith
      · rw [he] at hax
        linarith
    have hρ0 : a ≠ 0 := by
      intro hc
      rw [hc] at ha0
      norm_num at ha0
    rw [annuity_div_eq_geom_sum a (ne_of_gt ha1) hρ0 n]
    exact card_le_geomSum (one_le_inv_iff₀.mpr ⟨ha1, by linarith⟩) n
  · have hbx : (1 : ℚ) / 10000 ≤ |b| := not_lt.mp hgb
    have hb0 : (1 : ℚ) / 10000 ≤ b := by
      rcases abs_cases b with ⟨he, h0⟩ | ⟨he, h0⟩
      · rw [he] at hbx
        exact hbx
      · exfalso
        rw [abs_lt] at hga
        rw [he] at hbx
        linarith
    have hρ0 : b ≠ 0 := by
      intro hc
      rw [hc] at hb0
      norm_num at hb0
    rw [annuity_div_eq_geom_sum b (ne_of_gt hb1) hρ0 n]
    exact geomSum_le_card (inv_nonneg.mpr hb1.le) (inv_le_one_of_one_le₀ (by linarith)) n
  · have ha0 : a ≠ 0 := by
      intro hc
      rw [hc] at hga
      norm_num at hga
    have hb0 : b ≠ 0 := by
      intro hc
      rw [hc] at hgb
      norm_num at hgb
    rw [annuity_div_eq_geom_sum a (ne_of_gt ha1) ha0 n,
      annuity_div_eq_geom_sum b (ne_of_gt hb1) hb0 n]
    exact geomSum_mono (inv_nonneg.mpr hb1.le) hxba n

/-- C7: for a valid input record (positive currency amounts, non-negative
lifestyle factor and rates), increasing the assumed inflation percent while
holding every other field — including the post-retirement ROI — fixed never
decreases the required corpus. -/
theorem requiredCorpus_monotone_in_inflation (s : CalculatorState) (a b : ℚ)
    (hM : 0 < s.currentMonthlyExpenses) (hf : 0 ≤ s.lifestyleFactor)
    (_hS : 0 < s.existingSavings) (ha : 0 ≤ a) (hroi : 0 ≤ s.postRetirementROI)
    (hab : a ≤ b) :
    (calculateRetirementMetrics { s with assumedInflation := a }).requiredCorpus ≤
      (calculateRetirementMetrics { s with assumedInflation := b }).requiredCorpus := by
  show requiredCorpus { s with assumedInflation := a } ≤
    requiredCorpus { s with assumedInflation := b }
  rw [requiredCorpus_eq_annuityFactor, requiredCorpus_eq_annuityFactor]
  rcases Nat.eq_zero_or_pos (yearsInRetirement s) with hn | hn
  · have hza : yearsInRetirement { s with assumedInflation := a } = 0 := hn
    have hzb : yearsInRetirement { s with assumedInflation := b } = 0 := hn
    rw [hza, hzb]
    simp
  · have hna : 0 < yearsInRetirement { s with assumedInflation := a } := hn
    have hnb : 0 < yearsInRetirement { s with assumedInflation := b } := hn
    rw [if_pos hna, if_pos hnb]
    have hb' : 0 ≤ b := le_trans ha hab
    have h1a : (0:ℚ) < 1 + a / 100 := by
      have : (0:ℚ) ≤ a / 100 := div_nonneg ha (by norm_num)
      linarith
    have h1b : (0:ℚ) < 1 + b / 100 := by
      have : (0:ℚ) ≤ b / 100 := div_nonneg hb' (by norm_num)
      linarith
    have h1r : (0:ℚ) < 1 + s.postRetirementROI := by linarith
    have hρa : realRate { s with assumedInflation := a }
        = (1 + s.postRetirementROI) / (1 + a / 100) - 1 := rfl
    have hρb : realRate { s with assumedInflation := b }
        = (1 + s.postRetirementROI) / (1 + b / 100) - 1 := rfl
    have hρa1 : -1 < realRate { s with assumedInflation := a } := by
      rw [hρa]
      have hpos : 0 < (1 + s.postRetirementROI) / (1 + a / 100) := div_pos h1r h1a
      linarith
    have hρb1 : -1 < realRate { s with assumedInflation := b } := by
      rw [hρb]
      have hpos : 0 < (1 + s.postRetirementROI) / (1 + b / 100) := div_pos h1r h1b
      linarith
    have hρba : realRate { s with assumedInflation := b }
        ≤ realRate { s with assumedInflation := a } := by
      rw [hρa, hρb]
      have hdiv : (1 + s.postRetirementROI) / (1 + b / 100)
          ≤ (1 + s.postRetirementROI) / (1 + a / 100) :=
        (div_le_div_iff_of_pos_left h1r h1b h1a).mpr (by linarith)
      linarith
    have hE : annualExpenseAtRetirement { s with assumedInflation := a }
        ≤ annualExpenseAtRetirement { s with assumedInflation := b } := by
      show s.currentMonthlyExpenses * s.lifestyleFactor *
          (1 + a / 100) ^ yearsToRetirement s * 12
        ≤ s.currentMonthlyExpenses * s.lifestyleFactor *
          (1 + b / 100) ^ yearsToRetirement s * 12
      have hpow : (1 + a / 100) ^ yearsToRetirement s
          ≤ (1 + b / 100) ^ yearsToRetirement s :=
        pow_le_pow_left₀ h1a.le (by linarith) _
      have hMf : 0 ≤ s.currentMonthlyExpenses * s.lifestyleFactor := mul_nonneg hM.le hf
      have := mul_le_mul_of_nonneg_left hpow hMf
      linarith
    have hE0 : 0 ≤ annualExpenseAtRetirement { s with assumedInflation := a } := by
      show 0 ≤ s.currentMonthlyExpenses * s.lifestyleFactor *
          (1 + a / 100) ^ yearsToRetirement s * 12
      have hMf : 0 ≤ s.currentMonthlyExpenses * s.lifestyleFactor := mul_nonneg hM.le hf
      have hp : 0 ≤ (1 + a / 100) ^ yearsToRetirement s := pow_nonneg h1a.le _
      nlinarith
    have hEb0 : 0 ≤ annualExpenseAtRetirement { s with assumedInflation := b } :=
      le_trans hE0 hE
    show annualExpenseAtRetirement { s with assumedInflation := a } *
        annuityFactor (yearsInRetirement s) (realRate { s with assumedInflation := a })
      ≤ annualExpenseAtRetirement { s with assumedInflation := b } *
        annuityFactor (yearsInRetirement s) (realRate { s with assumedInflation := b })
    exact mul_le_mul hE (annuityFactor_antitone (yearsInRetirement s) hρb1 hρa1 hρba)
      (annuityFactor_nonneg (yearsInRetirement s) hρa1) hEb0

/-- Witness for the corpus monotonicity at two concrete inflation values. -/
theorem requiredCorpus_monotone_in_inflation_witness :
    (calculateRetirementMetrics
        { (⟨45, 55, 85, 100000, 1, 5000000, 6, 0.08, ""⟩ : CalculatorState) with
            assumedInflation := 2 }).requiredCorpus ≤
      (calculateRetirementMetrics
        { (⟨45, 55, 85, 100000, 1, 5000000, 6, 0.08, ""⟩ : CalculatorState) with
            assumedInflation := 4 }).requiredCorpus :=
  requiredCorpus_monotone_in_inflation ⟨45, 55, 85, 100000, 1, 5000000, 6, 0.08, ""⟩ 2 4
    (by norm_num) (by norm_num) (by norm_num) (by norm_num) (by norm_num) (by norm_num)
